import Mathlib

/-!
Verification development for the RFD trending-deals scraper (`src/RFD.py`).

The Python program is shallowly embedded here:

* HTML structure reachable by the BeautifulSoup queries is modelled by
  `Page` / `ThreadItem` / `TitleAnchor` / `StatNode`: each field records the
  outcome of the corresponding `find` call in the source.
* Python exceptions that the source can raise and does not catch are
  modelled by `Except PyErr`.
* The SQLite table `deals` is modelled by `DB`: a list of rows plus the
  next AUTOINCREMENT id.  `INSERT OR IGNORE` with the UNIQUE `title`
  column is `DB.insertOrIgnore`; `cleanup_old_deals` follows the SQL
  `DELETE ... WHERE id IN (SELECT id FROM deals ORDER BY id LIMIT 50)`.
* Python float division `upvotes / replies` is modelled by exact rational
  division; `float('inf')` by the sentinel `ERat.inf`.
* Python string operations `.strip()`, `.replace(',', '')`, `int(...)` and
  the substring test `keyword in dealtitle` are modelled by executable
  char-list functions below.
* Log lines are collected in order; timestamps and the end-of-run ranked
  dump of the table (an audit aid, lines 169-179 of the source) are elided
  from the log text.
-/

namespace RFD

/-- Log severities used by the program (`logging.debug/info/error`). -/
inductive LogLevel where
  | debug
  | info
  | error
deriving DecidableEq

/-- Uncaught Python exceptions the scraper can raise. -/
inductive PyErr where
  | attributeError
  | valueError
deriving DecidableEq

/-- Python truthiness of an optional string (`None` and `""` are falsy). -/
def pyTruthy : Option String → Bool
  | none => false
  | some t => !t.isEmpty

/-- Models Python `str.strip()`: removes leading and trailing whitespace. -/
def pyStrip (s : String) : String :=
  ((s.toList.dropWhile Char.isWhitespace).reverse.dropWhile Char.isWhitespace).reverse.asString

/-- Models `.replace(',', '')`: drops every comma (thousands separators). -/
def stripCommas (s : String) : String :=
  (s.toList.filter (fun c => c ≠ ',')).asString

/-- Digit accumulator for `pyIntOfString`. -/
def parseDigits : List Char → Option Nat
  | [] => none
  | cs => cs.foldl (fun acc c => acc.bind (fun n =>
      if c.isDigit then some (n * 10 + (c.toNat - 48)) else none)) (some 0)

/-- Models Python `int(s)` on an already-stripped string: an optional sign
followed by at least one decimal digit; anything else raises `ValueError`
(`none` here). -/
def pyIntOfString (s : String) : Option Int :=
  match s.toList with
  | '-' :: rest => (parseDigits rest).map (fun n => -(n : Int))
  | '+' :: rest => (parseDigits rest).map (fun n => (n : Int))
  | l => (parseDigits l).map (fun n => (n : Int))

/-- Executable substring test on char lists: `infixCheck n h` is true iff
`n` occurs contiguously inside `h`. -/
def infixCheck (needle : List Char) : List Char → Bool
  | [] => needle.isPrefixOf []
  | c :: rest => needle.isPrefixOf (c :: rest) || infixCheck needle rest

/-- Models the Python substring test `needle in hay` on strings. -/
def pyInStr (needle hay : String) : Bool :=
  infixCheck needle.toList hay.toList

/-- The fixed exclusion keyword list of line 113 of the source. -/
def filtered_keywords : List String := ["Dollarama", "Costco West", "PC Optimum"]

/-- `any(keyword in dealtitle for keyword in [...])` at line 113. -/
def keywordExcluded (dealtitle : String) : Bool :=
  filtered_keywords.any (fun k => pyInStr k dealtitle)

/-- The full guard of line 113: `if dealtitle and any(keyword in dealtitle ...)`. -/
def skipByKeyword : Option String → Bool
  | none => false
  | some t => !t.isEmpty && keywordExcluded t

/-- Value of the `ratio` variable: a Python float that is either a real
quotient or `float('inf')`.  Exact rationals model the float arithmetic. -/
inductive ERat where
  | finite (q : ℚ)
  | inf
deriving DecidableEq

/-- Python truthiness of the ratio float (`0.0` is falsy, `inf` truthy). -/
def ERat.pyTruthyE : ERat → Bool
  | .finite q => q != 0
  | .inf => true

/-- The comparison `ratio > 2` of line 143 (`inf > 2` is true in Python). -/
def ERat.gt2 : ERat → Bool
  | .finite q => decide (2 < q)
  | .inf => true

/-- Rendering of the ratio for log text (numeric formatting approximated). -/
def ERat.render : ERat → String
  | .finite q => toString q
  | .inf => "inf"

/-- Line 106: `ratio = upvotes / replies if replies > 0 else float('inf')`. -/
def ratioOf (upvotes replies : Int) : ERat :=
  if 0 < replies then .finite ((upvotes : ℚ) / (replies : ℚ)) else .inf

/-- Outcome of the two stat `find` calls (lines 104-105) for one counter:
the `div` may be absent (Python default 0), the `div` may lack its `span`
(attribute error on `None`), or the span has some text. -/
inductive StatNode where
  | absent
  | noSpan
  | span (text : String)
deriving DecidableEq

/-- Lines 104-105: `int(div.find('span').text.strip().replace(',', '')) if div else 0`. -/
def extractCount : StatNode → Except PyErr Int
  | .absent => .ok 0
  | .noSpan => .error .attributeError
  | .span t =>
    match pyIntOfString (stripCommas (pyStrip t)) with
    | some n => .ok n
    | none => .error .valueError

/-- The `a.thread_title_link` anchor: its stripped text and its href. -/
structure TitleAnchor where
  text : String
  href : String
deriving DecidableEq

/-- One `div.thread_main` item of the trending container. -/
structure ThreadItem where
  titleLink : Option TitleAnchor
  votes : StatNode
  posts : StatNode
deriving DecidableEq

/-- The fetched page: the trending `ul` container is present with its
`div.thread_main` items, or absent (`soup.find` returned `None`). -/
structure Page where
  trendingContainer : Option (List ThreadItem)
deriving DecidableEq

/-- Outcome of `requests.get` + `raise_for_status` (lines 83-84): a page,
or a `RequestException` (transport error or non-success status). -/
inductive FetchResult where
  | ok (page : Page)
  | failure (msg : String)
deriving DecidableEq

/-- Line 102: the deal title, `None` when the anchor is absent. -/
def dealtitleOf (thread : ThreadItem) : Option String :=
  thread.titleLink.map (fun a => a.text)

/-- Fixed base origin prepended to the relative href (line 103). -/
def baseUrl : String := "https://forums.redflagdeals.com"

/-- Line 103: `deal_url = base + href if dealtitle else None`. -/
def dealUrlOf (thread : ThreadItem) : Option String :=
  if pyTruthy (dealtitleOf thread) then thread.titleLink.map (fun a => baseUrl ++ a.href)
  else none

/-- One row of the SQLite `deals` table. -/
structure Row where
  id : Nat
  title : Option String
  upvotes : Int
  replies : Int
  ratio : ERat
  url : Option String
deriving DecidableEq

/-- The `deals` table: rows in insertion order plus the next
AUTOINCREMENT id. -/
structure DB where
  nextId : Nat
  rows : List Row
deriving DecidableEq

/-- Freshly created table (AUTOINCREMENT ids start at 1). -/
def emptyDB : DB := { nextId := 1, rows := [] }

/-- True iff a (non-NULL) title is already present in the table. -/
def DB.hasTitle (db : DB) (t : String) : Bool :=
  db.rows.any (fun r => r.title == some t)

/-- Number of rows carrying the given title. -/
def DB.countTitle (db : DB) (t : String) : Nat :=
  db.rows.countP (fun r => r.title == some t)

/-- Lines 147-151: `INSERT OR IGNORE INTO deals ...`.  The UNIQUE
constraint on `title` ignores the insert when a non-NULL title is already
present; NULL titles never conflict.  Returns the new table and whether a
row was inserted. -/
def DB.insertOrIgnore (db : DB) (title : Option String) (upvotes replies : Int)
    (ratio : ERat) (url : Option String) : DB × Bool :=
  match title with
  | some t =>
    if db.hasTitle t then (db, false)
    else ({ nextId := db.nextId + 1,
            rows := db.rows ++ [{ id := db.nextId, title := some t, upvotes := upvotes,
                                  replies := replies, ratio := ratio, url := url }] }, true)
  | none =>
    ({ nextId := db.nextId + 1,
       rows := db.rows ++ [{ id := db.nextId, title := none, upvotes := upvotes,
                             replies := replies, ratio := ratio, url := url }] }, true)

/-- Insertion sort used to model SQL `ORDER BY id`. -/
def insertIdSorted (x : Nat) : List Nat → List Nat
  | [] => [x]
  | y :: ys => if x ≤ y then x :: y :: ys else y :: insertIdSorted x ys

/-- Sorts a list of ids ascending (SQL `ORDER BY id`). -/
def sortIds : List Nat → List Nat
  | [] => []
  | x :: xs => insertIdSorted x (sortIds xs)

/-- Lines 56-69, `cleanup_old_deals`: if the table holds more than 300
rows, delete the rows whose ids are the 50 lowest
(`SELECT id FROM deals ORDER BY id LIMIT 50`). -/
def cleanup_old_deals (db : DB) : DB :=
  if 300 < db.rows.length then
    let doomed := (sortIds (db.rows.map (fun s => s.id))).take 50
    { db with rows := db.rows.filter (fun r => !(doomed.contains r.id)) }
  else db

/-- Payload handed to `send_notification` (lines 153-156); the code renders
these fields into the f-string body with the ratio at two decimals. -/
structure Notification where
  title : String
  dealtitle : String
  upvotes : Int
  replies : Int
  ratio : ERat
  url : Option String
deriving DecidableEq

/-- Mutable state threaded through the per-thread loop of `deal_scraper`. -/
structure LoopState where
  seen : List (Option String)
  db : DB
  new_deals_found : Bool
  notifications : List Notification
  logs : List (LogLevel × String)
deriving DecidableEq

/-- Python `set.add` on the seen-titles set. -/
def addSeen (seen : List (Option String)) (t : Option String) : List (Option String) :=
  if seen.contains t then seen else seen ++ [t]

/-- Lines 74-75: `seen_titles = {row[0] for row in cursor.fetchall()}`. -/
def seen_titles (db : DB) : List (Option String) :=
  (db.rows.map (fun r => r.title)).foldl addSeen []

/-- Lines 108-111: debug log on the title's truthiness. -/
def titleLog (dealtitle : Option String) : LogLevel × String :=
  if pyTruthy dealtitle then (.debug, "Found deal title: " ++ dealtitle.getD "")
  else (.debug, "Deal title is missing")

/-- Lines 117-131: debug logs on the truthiness of the two counts and the ratio. -/
def statLogs (upvotes replies : Int) (ratio : ERat) : List (LogLevel × String) :=
  [ if upvotes != 0 then (.debug, "Found upvotes: " ++ toString upvotes)
    else (.debug, "Upvotes are missing"),
    if replies != 0 then (.debug, "Found replies: " ++ toString replies)
    else (.debug, "Replies are missing"),
    if ratio.pyTruthyE then (.debug, "Found ratio: " ++ ratio.render)
    else (.debug, "Ratio is missing") ]

/-- Line 143: `if ratio > 2 and dealtitle not in seen_titles`. -/
def passesCriteria (ratio : ERat) (dealtitle : Option String)
    (seen : List (Option String)) : Bool :=
  ratio.gt2 && !(seen.contains dealtitle)

/-- Lines 108-164 after count extraction: logging, keyword skip, the
line-143 criteria check, `seen_titles.add(dealtitle.strip())` (an
attribute error when the title is `None`), the insert, the notification
and the retention pass. -/
def processRecord (dealtitle deal_url : Option String) (upvotes replies : Int)
    (st : LoopState) : Except PyErr LoopState :=
  let ratio := ratioOf upvotes replies
  let st1 : LoopState := { st with logs := st.logs ++ [titleLog dealtitle] }
  if skipByKeyword dealtitle then
    .ok { st1 with logs := st1.logs ++
      [(.info, "Skipping deal: " ++ dealtitle.getD "" ++ " (contains filtered keywords)")] }
  else
    let st2 : LoopState := { st1 with logs := st1.logs ++ statLogs upvotes replies ratio }
    let st3 : LoopState :=
      if pyTruthy dealtitle && upvotes != 0 && replies != 0 then
        { st2 with logs := st2.logs ++ [(.info, "Processed deal: " ++ dealtitle.getD "")] }
      else st2
    if passesCriteria ratio dealtitle st3.seen then
      match dealtitle with
      | none => .error .attributeError
      | some t =>
        let seenU := addSeen st3.seen (some (pyStrip t))
        let ins := st3.db.insertOrIgnore dealtitle upvotes replies ratio deal_url
        let notif : Notification :=
          { title := "New Deal!", dealtitle := pyStrip t, upvotes := upvotes,
            replies := replies, ratio := ratio, url := deal_url }
        let db2 := cleanup_old_deals ins.1
        .ok { seen := seenU, db := db2, new_deals_found := true,
              notifications := st3.notifications ++ [notif], logs := st3.logs }
    else
      .ok st3

/-- Lines 100-164: one iteration of the per-thread loop. -/
def processThread (thread : ThreadItem) (st : LoopState) : Except PyErr LoopState :=
  match extractCount thread.votes with
  | .error e => .error e
  | .ok upvotes =>
    match extractCount thread.posts with
    | .error e => .error e
    | .ok replies =>
      processRecord (dealtitleOf thread) (dealUrlOf thread) upvotes replies st

/-- The per-thread loop; an uncaught exception aborts the whole run. -/
def processThreads : List ThreadItem → LoopState → Except PyErr LoopState
  | [], st => .ok st
  | thread :: rest, st =>
    match processThread thread st with
    | .error e => .error e
    | .ok st1 => processThreads rest st1

/-- Lines 166-179: end-of-run logging (the ranked table dump is elided). -/
def finalLogs (st : LoopState) : LoopState :=
  if st.new_deals_found then
    { st with logs := st.logs ++ [(.info, "=== Hot Deals Sorted by Ratio ===")] }
  else
    { st with logs := st.logs ++ [(.info, "No new deals found")] }

/-- Lines 72-179, `deal_scraper`: load seen titles, fetch (returning early
on a request failure), query the trending container (`None.find_all`
raises when it is absent), loop over the thread items, final logging. -/
def deal_scraper (fetch : FetchResult) (db : DB) : Except PyErr LoopState :=
  let seen := seen_titles db
  match fetch with
  | .failure e =>
    .ok { seen := seen, db := db, new_deals_found := false, notifications := [],
          logs := [(.error, "Error fetching URL: " ++ e)] }
  | .ok page =>
    match page.trendingContainer with
    | none => .error .attributeError
    | some threads =>
      let logs0 := if !threads.isEmpty then
          [(LogLevel.info, "Found " ++ toString threads.length ++ " threads")]
        else [(LogLevel.info, "No threads found")]
      let st0 : LoopState := { seen := seen, db := db, new_deals_found := false,
                               notifications := [], logs := logs0 }
      match processThreads threads st0 with
      | .error e => .error e
      | .ok st => .ok (finalLogs st)

/-- Store invariant: row ids appear in strictly increasing order. -/
def IdsSorted (db : DB) : Prop :=
  List.Chain' (· < ·) (db.rows.map (fun r => r.id))

/-- Store invariant: every row id is below the AUTOINCREMENT counter. -/
def IdsBounded (db : DB) : Prop :=
  ∀ r ∈ db.rows, r.id < db.nextId

/-- Concrete well-formed store of `n` NULL-title rows, ids `1..n`. -/
def rangeDB (n : Nat) : DB :=
  { nextId := n + 1,
    rows := (List.range n).map (fun i =>
      { id := i + 1, title := none, upvotes := 0, replies := 0, ratio := .inf, url := none }) }

theorem sortIds_eq_self {l : List Nat} (h : List.Chain' (· < ·) l) : sortIds l = l := by
  induction l with
  | nil => rfl
  | cons x xs ih =>
    rw [List.chain'_cons'] at h
    have hxs := ih h.2
    simp only [sortIds, hxs]
    cases xs with
    | nil => rfl
    | cons y ys =>
      have hxy : x < y := h.1 y rfl
      simp [insertIdSorted, Nat.le_of_lt hxy]

theorem cleanup_of_le (db : DB) (h : db.rows.length ≤ 300) :
    cleanup_old_deals db = db := by
  simp [cleanup_old_deals, Nat.not_lt.mpr h]

theorem cleanup_rows_of_gt (db : DB) (hs : IdsSorted db) (h : 300 < db.rows.length) :
    (cleanup_old_deals db).rows = db.rows.drop 50 := by
  have hsorted : sortIds (db.rows.map (fun s => s.id)) = db.rows.map (fun s => s.id) :=
    sortIds_eq_self hs
  have hnd : (db.rows.map (fun s => s.id)).Nodup :=
    (List.chain'_iff_pairwise.mp hs).imp (fun hab => Nat.ne_of_lt hab)
  simp only [cleanup_old_deals, if_pos h, hsorted]
  set p : Row → Bool := fun r => !(((db.rows.map (fun s => s.id)).take 50).contains r.id) with hp
  have hsplit : db.rows.filter p = (db.rows.take 50 ++ db.rows.drop 50).filter p := by
    rw [List.take_append_drop]
  rw [hsplit, List.filter_append]
  have h1 : (db.rows.take 50).filter p = [] := by
    rw [List.filter_eq_nil_iff]
    intro r hr
    have hm : r.id ∈ (db.rows.map (fun s => s.id)).take 50 := by
      rw [← List.map_take]
      exact List.mem_map_of_mem _ hr
    simp [hp, List.contains, List.elem_iff, hm]
  have h2 : (db.rows.drop 50).filter p = db.rows.drop 50 := by
    rw [List.filter_eq_self]
    intro r hr
    have hm : r.id ∈ (db.rows.map (fun s => s.id)).drop 50 := by
      rw [← List.map_drop]
      exact List.mem_map_of_mem _ hr
    have hdisj := List.disjoint_take_drop hnd (le_refl 50)
    have hnotin : r.id ∉ (db.rows.map (fun s => s.id)).take 50 := fun hin => hdisj hin hm
    simp [hp, List.contains, List.elem_iff, hnotin]
  rw [h1, h2, List.nil_append]

theorem infixCheck_iff (needle : List Char) (hay : List Char) :
    infixCheck needle hay = true ↔ needle <:+: hay := by
  induction hay with
  | nil => simp [infixCheck, List.isPrefixOf_iff_prefix, List.infix_nil, List.prefix_nil]
  | cons c rest ih => simp [infixCheck, List.isPrefixOf_iff_prefix, ih, List.infix_cons_iff]

theorem processRecord_skip (dealtitle deal_url : Option String) (upvotes replies : Int)
    (st : LoopState) (h : skipByKeyword dealtitle = true) :
    processRecord dealtitle deal_url upvotes replies st =
      .ok { st with logs := (st.logs ++ [titleLog dealtitle]) ++
        [(.info, "Skipping deal: " ++ dealtitle.getD "" ++ " (contains filtered keywords)")] } := by
  simp [processRecord, h]

theorem processRecord_noPass (dealtitle deal_url : Option String) (upvotes replies : Int)
    (st : LoopState) (h : skipByKeyword dealtitle = false)
    (hc : passesCriteria (ratioOf upvotes replies) dealtitle st.seen = false) :
    ∃ newLogs, processRecord dealtitle deal_url upvotes replies st =
      .ok { st with logs := newLogs } := by
  by_cases hinfo : (pyTruthy dealtitle && upvotes != 0 && replies != 0) = true
  · refine ⟨st.logs ++ titleLog dealtitle ::
      (statLogs upvotes replies (ratioOf upvotes replies) ++
        [(LogLevel.info, "Processed deal: " ++ dealtitle.getD "")]), ?_⟩
    simp [processRecord, h, hinfo, hc]
  · refine ⟨st.logs ++ titleLog dealtitle :: statLogs upvotes replies (ratioOf upvotes replies), ?_⟩
    simp [processRecord, h, Bool.eq_false_iff.mpr hinfo, hc]

/-- C1: the engagement ratio is exactly `upvotes / replies` when `replies > 0`
and the unbounded sentinel when `replies = 0`; a zero-reply record with a
non-empty, non-excluded title is not keyword-skipped, beats the 2.0
threshold (the sentinel exceeds it by definition), and, when its title is
unseen, passes the full line-143 qualification check. -/
theorem claim_C1 (u r : Int) (t : String) (seen : List (Option String)) :
    (0 < r → ratioOf u r = .finite ((u : ℚ) / (r : ℚ)))
    ∧ (r = 0 → ratioOf u r = .inf)
    ∧ (t.isEmpty = false → keywordExcluded t = false →
        skipByKeyword (some t) = false
        ∧ (ratioOf u 0).gt2 = true
        ∧ (seen.contains (some t) = false →
            passesCriteria (ratioOf u 0) (some t) seen = true)) := by
  refine ⟨fun h => by simp [ratioOf, h], fun h => by simp [ratioOf, h], fun h1 h2 => ⟨?_, rfl, fun h3 => ?_⟩⟩
  · simp [skipByKeyword, h1, h2]
  · have hinf : ratioOf u 0 = .inf := rfl
    have h3m : some t ∉ seen := by simpa using h3
    simp [passesCriteria, hinf, ERat.gt2, h3m]

/-- Witness for C1 at concrete inputs (
`upvotes = 5, replies = 3` and `upvotes = 5, replies = 0`,
title `"Great TV Deal"`, empty seen set). -/
theorem claim_C1_witness :
    ratioOf 5 3 = .finite (((5 : Int) : ℚ) / ((3 : Int) : ℚ))
    ∧ ratioOf 5 0 = .inf
    ∧ passesCriteria (ratioOf 5 0) (some "Great TV Deal") [] = true :=
  ⟨(claim_C1 5 3 "Great TV Deal" []).1 (by decide),
   (claim_C1 5 0 "Great TV Deal" []).2.1 rfl,
   (((claim_C1 5 0 "Great TV Deal" []).2.2 (by decide) (by decide)).2.2 (by decide))⟩

/-- C2: with row ids in insertion order, one retention pass is the
identity when the store holds at most 300 rows, and otherwise removes
exactly the 50 rows with the lowest insertion order (the first 50 rows),
leaving `length - 50` rows. -/
theorem claim_C2 (db : DB) (h : IdsSorted db) :
    (db.rows.length ≤ 300 → cleanup_old_deals db = db)
    ∧ (300 < db.rows.length →
        (cleanup_old_deals db).rows = db.rows.drop 50
        ∧ (cleanup_old_deals db).rows.length = db.rows.length - 50) := by
  refine ⟨fun hle => cleanup_of_le db hle, fun hgt => ?_⟩
  have hd := cleanup_rows_of_gt db h hgt
  exact ⟨hd, by rw [hd, List.length_drop]⟩

theorem rangeDB_length (n : Nat) : (rangeDB n).rows.length = n := by
  simp [rangeDB]

theorem rangeDB_sorted (n : Nat) : IdsSorted (rangeDB n) := by
  unfold IdsSorted rangeDB
  rw [List.chain'_iff_pairwise]
  simp only [List.map_map]
  exact (List.pairwise_lt_range n).map _ (fun a b hab => Nat.succ_lt_succ hab)

theorem rangeDB_bounded (n : Nat) : IdsBounded (rangeDB n) := by
  intro r hr
  simp only [rangeDB, List.mem_map, List.mem_range] at hr
  obtain ⟨i, hi, rfl⟩ := hr
  simpa [rangeDB] using Nat.succ_lt_succ hi

/-- Witness for C2: a 301-row store is cut to 251 rows; a 300-row store
is left unchanged. -/
theorem claim_C2_witness :
    (cleanup_old_deals (rangeDB 301)).rows.length = 251
    ∧ cleanup_old_deals (rangeDB 300) = rangeDB 300 :=
  ⟨(((claim_C2 (rangeDB 301) (rangeDB_sorted 301)).2 (by simp [rangeDB_length])).2).trans
      (by simp [rangeDB_length]),
   (claim_C2 (rangeDB 300) (rangeDB_sorted 300)).1 (by simp [rangeDB_length])⟩

/-- C3: the store insert is idempotent in the title key: inserting an
already-present title changes nothing and reports `false`; from a store
without the title, inserting it twice leaves exactly one row for it, the
second attempt reporting `false` and changing nothing; and a per-thread
pipeline step whose title is already in the seen set changes nothing but
the log (no insert, no notification). -/
theorem claim_C3 (db : DB) (t : String) (u₁ r₁ u₂ r₂ : Int) (ra₁ ra₂ : ERat)
    (url₁ url₂ : Option String) (thread : ThreadItem) (st : LoopState) :
    (db.hasTitle t = true → db.insertOrIgnore (some t) u₁ r₁ ra₁ url₁ = (db, false))
    ∧ (db.countTitle t = 0 →
        (db.insertOrIgnore (some t) u₁ r₁ ra₁ url₁).1.countTitle t = 1
        ∧ (db.insertOrIgnore (some t) u₁ r₁ ra₁ url₁).1.insertOrIgnore (some t) u₂ r₂ ra₂ url₂
            = ((db.insertOrIgnore (some t) u₁ r₁ ra₁ url₁).1, false))
    ∧ (dealtitleOf thread = some t → st.seen.contains (some t) = true →
        ∀ u r, extractCount thread.votes = .ok u → extractCount thread.posts = .ok r →
        ∃ newLogs, processThread thread st = .ok { st with logs := newLogs }) := by
  refine ⟨fun hpres => by simp [DB.insertOrIgnore, hpres], fun h0 => ?_, fun hd hc u r hv hr => ?_⟩
  · have h0a := List.countP_eq_zero.mp h0
    have hft : db.hasTitle t = false := by
      cases hb : db.hasTitle t with
      | false => rfl
      | true =>
        obtain ⟨rrow, hrmem, hrp⟩ := List.any_eq_true.mp hb
        exact absurd hrp (h0a rrow hrmem)
    have hins : db.insertOrIgnore (some t) u₁ r₁ ra₁ url₁ =
        ({ nextId := db.nextId + 1,
           rows := db.rows ++ [{ id := db.nextId, title := some t, upvotes := u₁,
                                 replies := r₁, ratio := ra₁, url := url₁ }] }, true) := by
      simp [DB.insertOrIgnore, hft]
    rw [hins]
    constructor
    · simp [DB.countTitle, List.countP_append, List.countP_cons]
      intro a ha
      simpa using h0a a ha
    · simp [DB.insertOrIgnore, DB.hasTitle]
  · have hred : processThread thread st = processRecord (some t) (dealUrlOf thread) u r st := by
      simp [processThread, hv, hr, hd]
    rw [hred]
    cases hskip : skipByKeyword (some t) with
    | true => exact ⟨_, processRecord_skip (some t) (dealUrlOf thread) u r st hskip⟩
    | false =>
      have hcm : some t ∈ st.seen := by simpa using hc
      exact processRecord_noPass (some t) (dealUrlOf thread) u r st hskip
        (by simp [passesCriteria, hcm])

/-- Witness for C3: a one-row store holding title `"A"`, the empty store,
and a pipeline step over a thread titled `"A"` with `"A"` already seen. -/
theorem claim_C3_witness :
    (DB.insertOrIgnore ⟨2, [⟨1, some "A", 3, 0, .inf, none⟩]⟩ (some "A") 3 0 .inf none
      = (⟨2, [⟨1, some "A", 3, 0, .inf, none⟩]⟩, false))
    ∧ (emptyDB.insertOrIgnore (some "A") 3 0 .inf none).1.countTitle "A" = 1
    ∧ (∃ newLogs,
        processThread { titleLink := some ⟨"A", "/a"⟩, votes := .absent, posts := .absent }
          { seen := [some "A"], db := emptyDB, new_deals_found := false,
            notifications := [], logs := [] }
        = .ok { seen := [some "A"], db := emptyDB, new_deals_found := false,
                notifications := [], logs := newLogs }) :=
  ⟨(claim_C3 ⟨2, [⟨1, some "A", 3, 0, .inf, none⟩]⟩ "A" 3 0 3 0 .inf .inf none none
      ⟨none, .absent, .absent⟩
      ⟨[], emptyDB, false, [], []⟩).1 (by decide),
   ((claim_C3 emptyDB "A" 3 0 3 0 .inf .inf none none ⟨none, .absent, .absent⟩
      ⟨[], emptyDB, false, [], []⟩).2.1 (by decide)).1,
   (claim_C3 emptyDB "A" 3 0 3 0 .inf .inf none none
      { titleLink := some ⟨"A", "/a"⟩, votes := .absent, posts := .absent }
      { seen := [some "A"], db := emptyDB, new_deals_found := false,
        notifications := [], logs := [] }).2.2 rfl (by decide) 0 0 rfl rfl⟩

/-- C4: contrary to the claim, a fetched page whose trending listing
container is absent does NOT yield an empty sequence: `soup.find` returns
`None` and line 92 (`threads_container.find_all`) raises an uncaught
`AttributeError`, aborting the run.  The graceful "No threads found" path
exists only when the container is present but holds no thread items
(second conjunct). -/
theorem claim_C4 (db : DB) :
    deal_scraper (.ok ⟨none⟩) db = .error .attributeError
    ∧ deal_scraper (.ok ⟨some []⟩) db =
        .ok { seen := seen_titles db, db := db, new_deals_found := false, notifications := [],
              logs := [(.info, "No threads found"), (.info, "No new deals found")] } :=
  ⟨rfl, rfl⟩

/-- C5: contrary to the claim, a parsed thread record whose title is
absent is not always merely logged and skipped: when its ratio clears the
threshold (here `replies = 0`, so the unbounded sentinel), line 144
(`seen_titles.add(dealtitle.strip())`) calls `.strip()` on `None` and
raises an uncaught `AttributeError`, aborting the run. -/
theorem claim_C5 :
    deal_scraper
      (.ok ⟨some [{ titleLink := none, votes := .span "5", posts := .absent }]⟩) emptyDB
      = .error .attributeError := rfl

/-- C6: an absent count node does default to 0, and thousands separators
are stripped; but contrary to the claim, a present count whose text is
unparsable as an integer raises an uncaught `ValueError` (the
`except ValueError` handler at lines 139-140 wraps only a logging call),
aborting the run instead of defaulting to 0. -/
theorem claim_C6 :
    extractCount .absent = .ok 0
    ∧ extractCount (.span "1,234") = .ok 1234
    ∧ deal_scraper
        (.ok ⟨some [{ titleLink := some ⟨"Some Deal", "/t"⟩, votes := .span "N/A",
                      posts := .span "3" }]⟩) emptyDB
        = .error .valueError :=
  ⟨rfl, rfl, rfl⟩

/-- C7: a thread whose (non-empty) title contains an excluded keyword is
skipped before the insert and the notification, whatever its counts: the
pipeline step changes only the log. -/
theorem claim_C7 (a : TitleAnchor) (vn pn : StatNode) (st : LoopState) (u r : Int)
    (hne : a.text.isEmpty = false) (hkw : keywordExcluded a.text = true)
    (hv : extractCount vn = .ok u) (hr : extractCount pn = .ok r) :
    ∃ newLogs, processThread { titleLink := some a, votes := vn, posts := pn } st
      = .ok { st with logs := newLogs } := by
  have hskip : skipByKeyword (some a.text) = true := by simp [skipByKeyword, hne, hkw]
  have hred : processThread { titleLink := some a, votes := vn, posts := pn } st
      = processRecord (some a.text) (dealUrlOf ⟨some a, vn, pn⟩) u r st := by
    simp [processThread, hv, hr, dealtitleOf]
  rw [hred]
  exact ⟨_, processRecord_skip (some a.text) (dealUrlOf ⟨some a, vn, pn⟩) u r st hskip⟩

/-- Witness for C7: the scenario-C thread "Dollarama weekly flyer" with
upvotes 50 and replies 5 (ratio 10.0) against an empty run state. -/
theorem claim_C7_witness :
    ∃ newLogs, processThread
      { titleLink := some ⟨"Dollarama weekly flyer", "/d"⟩, votes := .span "50",
        posts := .span "5" }
      { seen := [], db := emptyDB, new_deals_found := false, notifications := [], logs := [] }
      = .ok { seen := [], db := emptyDB, new_deals_found := false, notifications := [],
              logs := newLogs } :=
  claim_C7 ⟨"Dollarama weekly flyer", "/d"⟩ (.span "50") (.span "5")
    { seen := [], db := emptyDB, new_deals_found := false, notifications := [], logs := [] }
    50 5 (by decide) (by decide) rfl rfl

/-- C8: when the fetch fails (transport error or non-success status,
both surfacing as the caught `RequestException`), the run logs the error
and returns at once: the store is unchanged, no notification is sent and
nothing is retried. -/
theorem claim_C8 (db : DB) (e : String) :
    deal_scraper (.failure e) db =
      .ok { seen := seen_titles db, db := db, new_deals_found := false,
            notifications := [], logs := [(.error, "Error fetching URL: " ++ e)] } := rfl

/-- C9: keyword exclusion is exactly a case-sensitive substring test
against the three fixed keywords; a title differing only in case (such as
"dollarama weekly flyer") is not excluded. -/
theorem claim_C9 (t : String) :
    (keywordExcluded t = true ↔
      ("Dollarama".toList <:+: t.toList ∨ "Costco West".toList <:+: t.toList
        ∨ "PC Optimum".toList <:+: t.toList))
    ∧ keywordExcluded "dollarama weekly flyer" = false := by
  constructor
  · simp [keywordExcluded, filtered_keywords, pyInStr, infixCheck_iff]
  · decide

theorem rangeDB_hasTitle (n : Nat) (t : String) : (rangeDB n).hasTitle t = false := by
  simp [DB.hasTitle, rangeDB]

/-- C10: a successful insert never loses its own row to the retention
pass that follows it: the new row carries the maximal id, and eviction
only removes the 50 lowest-id rows of a store larger than 300 rows. -/
theorem claim_C10 (db : DB) (hs : IdsSorted db) (hb : IdsBounded db) (t : String)
    (ht : db.hasTitle t = false) (u r : Int) (ra : ERat) (url : Option String) :
    (db.insertOrIgnore (some t) u r ra url).2 = true
    ∧ ({ id := db.nextId, title := some t, upvotes := u, replies := r,
         ratio := ra, url := url } : Row) ∈
        (cleanup_old_deals (db.insertOrIgnore (some t) u r ra url).1).rows := by
  have hins : db.insertOrIgnore (some t) u r ra url =
      ({ nextId := db.nextId + 1,
         rows := db.rows ++ [{ id := db.nextId, title := some t, upvotes := u,
                               replies := r, ratio := ra, url := url }] }, true) := by
    simp [DB.insertOrIgnore, ht]
  rw [hins]
  refine ⟨rfl, ?_⟩
  by_cases hlen : 300 <
      (db.rows ++ [({ id := db.nextId, title := some t, upvotes := u,
                      replies := r, ratio := ra, url := url } : Row)]).length
  · have hsorted : IdsSorted
        { nextId := db.nextId + 1,
          rows := db.rows ++ [{ id := db.nextId, title := some t, upvotes := u,
                                replies := r, ratio := ra, url := url }] } := by
      unfold IdsSorted
      rw [List.map_append, List.chain'_append]
      refine ⟨hs, List.chain'_singleton _, ?_⟩
      intro x hx y hy
      have hxmem : x ∈ db.rows.map (fun s => s.id) := List.mem_of_mem_getLast? hx
      obtain ⟨rr, hrr, rfl⟩ := List.mem_map.mp hxmem
      simp only [List.map_cons, List.map_nil, List.head?_cons, Option.mem_def,
        Option.some_inj] at hy
      subst hy
      exact hb rr hrr
    have hdrop := cleanup_rows_of_gt _ hsorted hlen
    rw [hdrop]
    have h50 : 50 ≤ db.rows.length := by
      rw [List.length_append] at hlen
      simp only [List.length_cons, List.length_nil] at hlen
      omega
    rw [List.drop_append_of_le_length h50]
    exact List.mem_append_right _ (List.mem_singleton_self _)
  · rw [cleanup_of_le _ (Nat.not_lt.mp hlen)]
    exact List.mem_append_right _ (List.mem_singleton_self _)

/-- Witness for C10: inserting a fresh title into a well-formed 301-row
store (which triggers eviction) keeps the newly inserted row. -/
theorem claim_C10_witness :
    ((rangeDB 301).insertOrIgnore (some "Great TV Deal") 120 0 .inf (some "/tv")).2 = true
    ∧ ({ id := (rangeDB 301).nextId, title := some "Great TV Deal", upvotes := 120,
         replies := 0, ratio := .inf, url := some "/tv" } : Row) ∈
        (cleanup_old_deals
          ((rangeDB 301).insertOrIgnore (some "Great TV Deal") 120 0 .inf (some "/tv")).1).rows :=
  claim_C10 (rangeDB 301) (rangeDB_sorted 301) (rangeDB_bounded 301) "Great TV Deal"
    (rangeDB_hasTitle 301 "Great TV Deal") 120 0 .inf (some "/tv")

end RFD
